import Mathlib

set_option autoImplicit false

/-!
Verification development for the `astrbot_plugin_minecraft_adapter` repository.

This file shallowly embeds the core of the plugin — the protocol codec
(`src/core/models.py`), the WebSocket transport client (`src/core/ws_client.py`),
the REST query client (`src/core/rest_client.py`) and the server registry
(`src/core/server_manager.py`) — as executable Lean definitions, and proves
properties of the embedded code.

Modelling conventions:
- Python/JSON values are modelled by the inductive type `Json`
  (JSON numbers are modelled as `Int`; float subtleties are out of scope).
- Python code that can raise is modelled in the `Except PyError` monad;
  a `try/except` block is an explicit `match` on the `Except` value.
- Dynamically-typed dataclass fields (fields that `from_dict` fills with
  whatever JSON value was present) are typed `Json` in the Lean structures.
- `dict.get(k, default)` on a value that is not a dict raises
  `AttributeError`; this is `pyGet` below.
- Wall-clock time and generated UUIDs are passed in as explicit parameters.
-/

/-- Json models a Python value obtained from parsing JSON
(`null`, booleans, numbers, strings, lists, dicts).  Dicts are association
lists; Python dicts have unique keys, lookups take the first binding. -/
inductive Json where
  | null : Json
  | bool (b : Bool) : Json
  | num (n : Int) : Json
  | str (s : String) : Json
  | arr (elems : List Json) : Json
  | obj (fields : List (String × Json)) : Json

/-- PyError models a raised Python exception.  The concrete exception class
is irrelevant to every property proved here, so a single constructor models
the `AttributeError`/`TypeError` family raised by attribute access on a
value of the wrong type. -/
inductive PyError where
  | attributeError : PyError
  deriving DecidableEq

/-- pyTruthy is Python truthiness of a JSON-shaped value: `None`, `False`,
`0`, `""`, `[]` and the empty dict are falsy, everything else is truthy. -/
def pyTruthy : Json → Bool
  | Json.null => false
  | Json.bool b => b
  | Json.num n => n != 0
  | Json.str s => s != ""
  | Json.arr l => !l.isEmpty
  | Json.obj l => !l.isEmpty

/-- pyGet models Python `x.get(k, default)`.  On a dict it returns the value
bound to `k` (or `default` when `k` is absent); on any non-dict value the
attribute access raises. -/
def pyGet (j : Json) (k : String) (default : Json) : Except PyError Json :=
  match j with
  | Json.obj fields => Except.ok ((fields.lookup k).getD default)
  | _ => Except.error PyError.attributeError

/-- jlookup is the lookup of a key in a JSON object field list (`data[k]`
after a successful `k in data` test). -/
def jlookup (fields : List (String × Json)) (k : String) : Option Json :=
  fields.lookup k

/-- MessageType is the `MessageType(str, Enum)` of `src/core/models.py`:
the fourteen wire message types. -/
inductive MessageType where
  | HEARTBEAT | HEARTBEAT_ACK | CONNECTION_ACK
  | CHAT_REQUEST | CHAT_RESPONSE
  | MESSAGE_FORWARD | MESSAGE_INCOMING
  | PLAYER_JOIN | PLAYER_QUIT
  | COMMAND_REQUEST | COMMAND_RESPONSE
  | STATUS_UPDATE | ERROR | DISCONNECT
  deriving DecidableEq

/-- MessageType.value is the wire string of each enum member. -/
def MessageType.value : MessageType → String
  | HEARTBEAT => "HEARTBEAT"
  | HEARTBEAT_ACK => "HEARTBEAT_ACK"
  | CONNECTION_ACK => "CONNECTION_ACK"
  | CHAT_REQUEST => "CHAT_REQUEST"
  | CHAT_RESPONSE => "CHAT_RESPONSE"
  | MESSAGE_FORWARD => "MESSAGE_FORWARD"
  | MESSAGE_INCOMING => "MESSAGE_INCOMING"
  | PLAYER_JOIN => "PLAYER_JOIN"
  | PLAYER_QUIT => "PLAYER_QUIT"
  | COMMAND_REQUEST => "COMMAND_REQUEST"
  | COMMAND_RESPONSE => "COMMAND_RESPONSE"
  | STATUS_UPDATE => "STATUS_UPDATE"
  | ERROR => "ERROR"
  | DISCONNECT => "DISCONNECT"

/-- MessageType.ofString is enum lookup by value: `MessageType(s)` succeeds
exactly on the fourteen member strings. -/
def MessageType.ofString (s : String) : Option MessageType :=
  if s = "HEARTBEAT" then some HEARTBEAT
  else if s = "HEARTBEAT_ACK" then some HEARTBEAT_ACK
  else if s = "CONNECTION_ACK" then some CONNECTION_ACK
  else if s = "CHAT_REQUEST" then some CHAT_REQUEST
  else if s = "CHAT_RESPONSE" then some CHAT_RESPONSE
  else if s = "MESSAGE_FORWARD" then some MESSAGE_FORWARD
  else if s = "MESSAGE_INCOMING" then some MESSAGE_INCOMING
  else if s = "PLAYER_JOIN" then some PLAYER_JOIN
  else if s = "PLAYER_QUIT" then some PLAYER_QUIT
  else if s = "COMMAND_REQUEST" then some COMMAND_REQUEST
  else if s = "COMMAND_RESPONSE" then some COMMAND_RESPONSE
  else if s = "STATUS_UPDATE" then some STATUS_UPDATE
  else if s = "ERROR" then some ERROR
  else if s = "DISCONNECT" then some DISCONNECT
  else none

/-- SourceType is the `SourceType(str, Enum)` of `src/core/models.py`. -/
inductive SourceType where
  | PLAYER | SERVER | SYSTEM
  deriving DecidableEq

/-- SourceType.ofString is enum lookup by value for `SourceType`. -/
def SourceType.ofString (s : String) : Option SourceType :=
  if s = "PLAYER" then some PLAYER
  else if s = "SERVER" then some SERVER
  else if s = "SYSTEM" then some SYSTEM
  else none

/-- TargetType is the `TargetType(str, Enum)` of `src/core/models.py`. -/
inductive TargetType where
  | PLAYER | BROADCAST | SERVER
  deriving DecidableEq

/-- TargetType.value is the wire string of each `TargetType` member. -/
def TargetType.value : TargetType → String
  | PLAYER => "PLAYER"
  | BROADCAST => "BROADCAST"
  | SERVER => "SERVER"

/-- TargetType.ofString is enum lookup by value for `TargetType`. -/
def TargetType.ofString (s : String) : Option TargetType :=
  if s = "PLAYER" then some PLAYER
  else if s = "BROADCAST" then some BROADCAST
  else if s = "SERVER" then some SERVER
  else none

/-- safe_enum (`src/core/models.py` lines 10-15) for `MessageType`:
`try: return MessageType(value) except ValueError: return default`.
Enum lookup by value on a `str` enum only ever matches a string argument;
with a non-string argument the lookup raises `ValueError` (caught here).
The one-enum-per-definition shape replaces the Python generic. -/
def safe_enum_message_type (value : Json) (default : MessageType) : MessageType :=
  match value with
  | Json.str s => (MessageType.ofString s).getD default
  | _ => default

/-- safe_enum for `SourceType` (same scheme as `safe_enum_message_type`). -/
def safe_enum_source_type (value : Json) (default : SourceType) : SourceType :=
  match value with
  | Json.str s => (SourceType.ofString s).getD default
  | _ => default

/-- safe_enum for `TargetType` (same scheme as `safe_enum_message_type`). -/
def safe_enum_target_type (value : Json) (default : TargetType) : TargetType :=
  match value with
  | Json.str s => (TargetType.ofString s).getD default
  | _ => default

/-- MCMessageSource embeds the `MCMessageSource` dataclass.  The non-enum
fields are dynamically typed in Python (the codec stores whatever JSON value
was present), hence `Json` here. -/
structure MCMessageSource where
  type : SourceType
  server_name : Json
  server_platform : Json
  player_uuid : Json
  player_name : Json
  player_display_name : Json

/-- MCMessageSource.from_dict (`src/core/models.py` lines 187-198):
`server = data.get("server", {})`, `player = data.get("player", {})`, then
field-wise `.get` with string defaults.  Raises when `data`, `server` or
`player` is not a dict. -/
def MCMessageSource.from_dict (data : Json) : Except PyError MCMessageSource :=
  match pyGet data "server" (Json.obj []) with
  | Except.error e => Except.error e
  | Except.ok server =>
  match pyGet data "player" (Json.obj []) with
  | Except.error e => Except.error e
  | Except.ok player =>
  match pyGet data "type" (Json.str "PLAYER") with
  | Except.error e => Except.error e
  | Except.ok tyv =>
  match pyGet server "name" (Json.str "") with
  | Except.error e => Except.error e
  | Except.ok sn =>
  match pyGet server "platform" (Json.str "") with
  | Except.error e => Except.error e
  | Except.ok sp =>
  match pyGet player "uuid" (Json.str "") with
  | Except.error e => Except.error e
  | Except.ok pu =>
  match pyGet player "name" (Json.str "") with
  | Except.error e => Except.error e
  | Except.ok pn =>
  match pyGet player "displayName" (Json.str "") with
  | Except.error e => Except.error e
  | Except.ok pd =>
    Except.ok
      { type := safe_enum_source_type tyv SourceType.PLAYER
        server_name := sn
        server_platform := sp
        player_uuid := pu
        player_name := pn
        player_display_name := pd }

/-- MCMessageTarget embeds the `MCMessageTarget` dataclass. -/
structure MCMessageTarget where
  type : TargetType
  player_uuid : Json
  player_name : Json

/-- MCMessageTarget.from_dict (`src/core/models.py` lines 209-217). -/
def MCMessageTarget.from_dict (data : Json) : Except PyError MCMessageTarget :=
  match pyGet data "type" (Json.str "BROADCAST") with
  | Except.error e => Except.error e
  | Except.ok tyv =>
  match pyGet data "playerUuid" (Json.str "") with
  | Except.error e => Except.error e
  | Except.ok pu =>
  match pyGet data "playerName" (Json.str "") with
  | Except.error e => Except.error e
  | Except.ok pn =>
    Except.ok
      { type := safe_enum_target_type tyv TargetType.BROADCAST
        player_uuid := pu
        player_name := pn }

/-- MCMessageTarget.to_dict (`src/core/models.py` lines 219-225): always
emits `type`, emits `playerUuid`/`playerName` only when truthy. -/
def MCMessageTarget.to_dict (t : MCMessageTarget) : Json :=
  Json.obj
    ([("type", Json.str (TargetType.value t.type))]
      ++ (if pyTruthy t.player_uuid then [("playerUuid", t.player_uuid)] else [])
      ++ (if pyTruthy t.player_name then [("playerName", t.player_name)] else []))

/-- MCMessage embeds the `MCMessage` dataclass (the wire envelope). -/
structure MCMessage where
  type : MessageType
  id : Json
  source : Option MCMessageSource
  target : Option MCMessageTarget
  payload : Json
  timestamp : Json
  reply_to : Json

/-- decode_source_field is the `if "source" in data: source =
MCMessageSource.from_dict(data["source"])` step of `MCMessage.from_dict`
(`src/core/models.py` lines 244-245): decoded only when the key is
present.  Input to the enclosing `from_dict` must be a dict (the Python
function is typed `data: dict`; a non-dict raises on the first `in`
test or `.get` call). -/
def decode_source_field (fields : List (String × Json)) :
    Except PyError (Option MCMessageSource) :=
  match jlookup fields "source" with
  | some s =>
    match MCMessageSource.from_dict s with
    | Except.error e => Except.error e
    | Except.ok src => Except.ok (some src)
  | none => Except.ok none

/-- decode_target_field is the `if "target" in data: target =
MCMessageTarget.from_dict(data["target"])` step (lines 246-247). -/
def decode_target_field (fields : List (String × Json)) :
    Except PyError (Option MCMessageTarget) :=
  match jlookup fields "target" with
  | some t =>
    match MCMessageTarget.from_dict t with
    | Except.error e => Except.error e
    | Except.ok tgt => Except.ok (some tgt)
  | none => Except.ok none

/-- MCMessage.from_dict (`src/core/models.py` lines 240-257), assembled
from the two optional sub-decoders above plus the defaulted fields. -/
def MCMessage.from_dict (data : Json) : Except PyError MCMessage :=
  match data with
  | Json.obj fields =>
    match decode_source_field fields with
    | Except.error e => Except.error e
    | Except.ok source =>
      match decode_target_field fields with
      | Except.error e => Except.error e
      | Except.ok target =>
        Except.ok
          { type := safe_enum_message_type
                      ((jlookup fields "type").getD (Json.str "ERROR"))
                      MessageType.ERROR
            id := (jlookup fields "id").getD (Json.str "")
            source := source
            target := target
            payload := (jlookup fields "payload").getD (Json.obj [])
            timestamp := (jlookup fields "timestamp").getD (Json.num 0)
            reply_to := (jlookup fields "replyTo").getD (Json.str "") }
  | _ => Except.error PyError.attributeError

/-- MCMessage.to_dict (`src/core/models.py` lines 259-271): always emits
`type` (the enum's wire string), `id` and `timestamp`; emits `target`
(via its `to_dict`) when the optional is set, and `payload`/`replyTo`
only when truthy.  `source` is never emitted. -/
def MCMessage.to_dict (m : MCMessage) : Json :=
  Json.obj
    ([("type", Json.str (MessageType.value m.type)),
      ("id", m.id),
      ("timestamp", m.timestamp)]
      ++ (match m.target with
          | some t => [("target", MCMessageTarget.to_dict t)]
          | none => [])
      ++ (if pyTruthy m.payload then [("payload", m.payload)] else [])
      ++ (if pyTruthy m.reply_to then [("replyTo", m.reply_to)] else []))

/-- memberIsObjOrAbsent decides that member `k` of an object's field
list is absent or itself an object. -/
def memberIsObjOrAbsent (fs : List (String × Json)) (k : String) : Bool :=
  match jlookup fs k with
  | none => true
  | some (Json.obj _) => true
  | some _ => false

/-- wellShapedSource decides that the `source` member of a decoded JSON
object, when present, is itself an object whose `server` and `player`
members (when present) are objects — exactly the shapes on which
`MCMessageSource.from_dict` performs no attribute access on a non-dict. -/
def wellShapedSource (fields : List (String × Json)) : Bool :=
  match jlookup fields "source" with
  | none => true
  | some (Json.obj sfs) =>
      memberIsObjOrAbsent sfs "server" && memberIsObjOrAbsent sfs "player"
  | some _ => false

/-- wellShapedTarget decides that the `target` member, when present, is an
object. -/
def wellShapedTarget (fields : List (String × Json)) : Bool :=
  memberIsObjOrAbsent fields "target" 

/-- typeFieldStrOrAbsent decides that the `type` member is absent or holds
a string (the shape quantified over by the decode-total-function claim). -/
def typeFieldStrOrAbsent (fields : List (String × Json)) : Bool :=
  match jlookup fields "type" with
  | none => true
  | some (Json.str _) => true
  | some _ => false

/-- typeMissingOrUnknown decides that the `type` member is absent, or holds
a string that is not one of the fourteen recognized message-type values. -/
def typeMissingOrUnknown (fields : List (String × Json)) : Bool :=
  match jlookup fields "type" with
  | none => true
  | some (Json.str s) => (MessageType.ofString s).isNone
  | some _ => false

/-- ServerInfo embeds the `ServerInfo` dataclass (handshake snapshot);
fields are dynamically typed, as in the codec structures above. -/
structure ServerInfo where
  name : Json
  platform : Json
  platform_version : Json
  minecraft_version : Json
  motd : Json
  max_players : Json
  online_count : Json
  uptime : Json
  uptime_formatted : Json

/-- ServerInfo.from_dict (`src/core/models.py` lines 94-106). -/
def ServerInfo.from_dict (data : Json) : Except PyError ServerInfo :=
  match pyGet data "name" (Json.str "") with
  | Except.error e => Except.error e
  | Except.ok nm =>
  match pyGet data "platform" (Json.str "") with
  | Except.error e => Except.error e
  | Except.ok pf =>
  match pyGet data "platformVersion" (Json.str "") with
  | Except.error e => Except.error e
  | Except.ok pv =>
  match pyGet data "minecraftVersion" (Json.str "") with
  | Except.error e => Except.error e
  | Except.ok mv =>
  match pyGet data "motd" (Json.str "") with
  | Except.error e => Except.error e
  | Except.ok mo =>
  match pyGet data "maxPlayers" (Json.num 0) with
  | Except.error e => Except.error e
  | Except.ok mp =>
  match pyGet data "onlineCount" (Json.num 0) with
  | Except.error e => Except.error e
  | Except.ok oc =>
  match pyGet data "uptime" (Json.num 0) with
  | Except.error e => Except.error e
  | Except.ok up =>
  match pyGet data "uptimeFormatted" (Json.str "") with
  | Except.error e => Except.error e
  | Except.ok uf =>
    Except.ok
      { name := nm, platform := pf, platform_version := pv
        minecraft_version := mv, motd := mo, max_players := mp
        online_count := oc, uptime := up, uptime_formatted := uf }

/-- DEFAULT_RECONNECT_DELAY is the connection constant of
`src/core/ws_client.py` line 16 (initial reconnect delay, seconds). -/
def DEFAULT_RECONNECT_DELAY : Nat := 1

/-- MAX_RECONNECT_DELAY is the connection constant of
`src/core/ws_client.py` line 17 (default cap on the reconnect delay). -/
def MAX_RECONNECT_DELAY : Nat := 60

namespace WebSocketClient

/-- ClientState is the mutable state of one `WebSocketClient` instance:
the `_connected` and `_running` flags, whether `_ws` is a live (non-None,
non-closed) socket, whether `_session` exists, the negotiated
`_session_id`, the `_server_info` snapshot and the current
`_reconnect_delay`. -/
structure ClientState where
  connected : Bool
  running : Bool
  wsOpen : Bool
  sessionOpen : Bool
  sessionId : Json
  serverInfo : Option ServerInfo
  reconnectDelay : Nat

/-- WSFrame models one message yielded by the WebSocket iterator in the
receive loop: a TEXT frame with parseable JSON, a TEXT frame whose body
fails JSON parsing (`msg.json()` raises, caught in the loop), an ERROR
frame, a CLOSED frame, or a frame of any other type (no branch matches;
the loop just continues). -/
inductive WSFrame where
  | text (j : Json)
  | malformedText
  | wsError
  | closed
  | other

/-- RecvResult bundles the observable outcome of receive-side processing:
the final client state, the frames written to the socket (in order) and
the messages passed to the registered message callback (in order). -/
structure RecvResult where
  state : ClientState
  sent : List Json
  dispatched : List MCMessage

/-- ws_send models `WebSocketClient._send` (`src/core/ws_client.py` lines
256-266): if `_ws` is absent or closed, return `False` without writing;
otherwise write the JSON frame and return `True`.  A transport-level
failure of the write itself (caught `send_json` exception) is abstracted
away: the modelled write always succeeds. -/
def ws_send (data : Json) (st : ClientState) : Bool × List Json :=
  if st.wsOpen then (true, [data]) else (false, [])

/-- send_message (`src/core/ws_client.py` lines 268-270): serialize via
`MCMessage.to_dict` and hand to `_send`. -/
def send_message (m : MCMessage) (st : ClientState) : Bool × List Json :=
  ws_send (MCMessage.to_dict m) st

/-- chat_response_json is the envelope `send_chat_response` builds
(`src/core/ws_client.py` lines 272-302); `u` stands for the generated
uuid and `now` for `int(time.time() * 1000)`. -/
def chat_response_json (u reply_to target_type chat_mode content : String)
    (player_uuid : String) (success : Bool) (error_message : String)
    (now : Int) : Json :=
  Json.obj
    [("type", Json.str "CHAT_RESPONSE"),
     ("id", Json.str u),
     ("replyTo", Json.str reply_to),
     ("target", Json.obj
        ([("type", Json.str target_type)]
          ++ (if player_uuid != "" then [("playerUuid", Json.str player_uuid)] else []))),
     ("payload", Json.obj
        [("content", Json.str content),
         ("chatMode", Json.str chat_mode),
         ("success", Json.bool success),
         ("errorMessage", if success then Json.null else Json.str error_message)]),
     ("timestamp", Json.num now)]

/-- send_chat_response (`src/core/ws_client.py` lines 272-302). -/
def send_chat_response (u reply_to target_type chat_mode content : String)
    (player_uuid : String) (success : Bool) (error_message : String)
    (now : Int) (st : ClientState) : Bool × List Json :=
  ws_send (chat_response_json u reply_to target_type chat_mode content
    player_uuid success error_message now) st

/-- incoming_message_json is the envelope `send_incoming_message` builds
(`src/core/ws_client.py` lines 304-334). -/
def incoming_message_json (u platform user_id user_name content : String)
    (target_type : String) (player_uuid : String) (now : Int) : Json :=
  Json.obj
    [("type", Json.str "MESSAGE_INCOMING"),
     ("id", Json.str u),
     ("target", Json.obj
        ([("type", Json.str target_type)]
          ++ (if player_uuid != "" then [("playerUuid", Json.str player_uuid)] else []))),
     ("payload", Json.obj
        [("source", Json.obj
            [("platform", Json.str platform),
             ("userId", Json.str user_id),
             ("userName", Json.str user_name)]),
         ("content", Json.str content)]),
     ("timestamp", Json.num now)]

/-- send_incoming_message (`src/core/ws_client.py` lines 304-334). -/
def send_incoming_message (u platform user_id user_name content : String)
    (target_type : String) (player_uuid : String) (now : Int)
    (st : ClientState) : Bool × List Json :=
  ws_send (incoming_message_json u platform user_id user_name content
    target_type player_uuid now) st

/-- command_request_json is the envelope `send_command_request` builds
(`src/core/ws_client.py` lines 336-356); `playerUuid` is added only when
the optional argument is truthy (present and non-empty). -/
def command_request_json (u command executor : String)
    (player_uuid : Option String) (now : Int) : Json :=
  Json.obj
    [("type", Json.str "COMMAND_REQUEST"),
     ("id", Json.str u),
     ("payload", Json.obj
        ([("command", Json.str command), ("executor", Json.str executor)]
          ++ (match player_uuid with
              | some s => if s != "" then [("playerUuid", Json.str s)] else []
              | none => []))),
     ("timestamp", Json.num now)]

/-- send_command_request (`src/core/ws_client.py` lines 336-356). -/
def send_command_request (u command executor : String)
    (player_uuid : Option String) (now : Int)
    (st : ClientState) : Bool × List Json :=
  ws_send (command_request_json u command executor player_uuid now) st

/-- heartbeat_ack_json is the frame `_send_heartbeat_ack` builds
(`src/core/ws_client.py` lines 247-254): type `HEARTBEAT_ACK`, the
acknowledged message's id, and the current time. -/
def heartbeat_ack_json (msg_id : Json) (now : Int) : Json :=
  Json.obj
    [("type", Json.str "HEARTBEAT_ACK"),
     ("id", msg_id),
     ("timestamp", Json.num now)]

/-- handle_message models `WebSocketClient._handle_message`
(`src/core/ws_client.py` lines 192-229).  `HEARTBEAT` answers with an
ack carrying the same id; `HEARTBEAT_ACK` is discarded; `DISCONNECT`
reads `reason`/`message` out of the payload (raising when the payload is
not a dict) and clears `_connected`; `ERROR` reads `code`/`message` and
logs; everything else goes to the message callback, whose exceptions are
caught and logged (`try`/`except` at lines 226-229), so the callback's
result never influences state or control flow. -/
def handle_message (onMessage : Option (MCMessage → Except PyError Unit))
    (now : Int) (msg : MCMessage) (st : ClientState) :
    Except PyError RecvResult :=
  match msg.type with
  | MessageType.HEARTBEAT =>
      let s := ws_send (heartbeat_ack_json msg.id now) st
      Except.ok { state := st, sent := s.2, dispatched := [] }
  | MessageType.HEARTBEAT_ACK =>
      Except.ok { state := st, sent := [], dispatched := [] }
  | MessageType.DISCONNECT =>
      match pyGet msg.payload "reason" (Json.str "Unknown") with
      | Except.error e => Except.error e
      | Except.ok _ =>
      match pyGet msg.payload "message" (Json.str "") with
      | Except.error e => Except.error e
      | Except.ok _ =>
        Except.ok { state := { st with connected := false }, sent := [], dispatched := [] }
  | MessageType.ERROR =>
      match pyGet msg.payload "code" (Json.num 0) with
      | Except.error e => Except.error e
      | Except.ok _ =>
      match pyGet msg.payload "message" (Json.str "") with
      | Except.error e => Except.error e
      | Except.ok _ =>
        Except.ok { state := st, sent := [], dispatched := [] }
  | _ =>
      match onMessage with
      | some _ =>
          Except.ok { state := st, sent := [], dispatched := [msg] }
      | none =>
          Except.ok { state := st, sent := [], dispatched := [] }

/-- receive_loop models `WebSocketClient._receive_loop`
(`src/core/ws_client.py` lines 170-190) over the list of frames the
socket yields.  A TEXT frame is parsed and handled, with any exception
from parsing or handling caught and logged (loop continues); an ERROR or
CLOSED frame breaks the loop; other frame types are skipped. -/
def receive_loop (onMessage : Option (MCMessage → Except PyError Unit))
    (now : Int) : List WSFrame → ClientState → RecvResult
  | [], st => { state := st, sent := [], dispatched := [] }
  | WSFrame.text j :: rest, st =>
      (match MCMessage.from_dict j with
        | Except.ok m =>
          match handle_message onMessage now m st with
          | Except.ok r =>
              let rec' := receive_loop onMessage now rest r.state
              { state := rec'.state, sent := r.sent ++ rec'.sent,
                dispatched := r.dispatched ++ rec'.dispatched }
          | Except.error _ => receive_loop onMessage now rest st
        | Except.error _ => receive_loop onMessage now rest st)
  | WSFrame.malformedText :: rest, st => receive_loop onMessage now rest st
  | WSFrame.wsError :: _, st => { state := st, sent := [], dispatched := [] }
  | WSFrame.closed :: _, st => { state := st, sent := [], dispatched := [] }
  | WSFrame.other :: rest, st => receive_loop onMessage now rest st

/-- FirstRecv models the outcome of `asyncio.wait_for(self._ws.receive(),
timeout=CONNECTION_TIMEOUT)` during the handshake: a timeout, a TEXT
frame with parseable JSON, a TEXT frame with unparseable JSON
(`msg.json()` raises, caught by the outer handler), or a non-TEXT
frame. -/
inductive FirstRecv where
  | timeout
  | text (j : Json)
  | badText
  | nonText

/-- ConnectEnv is the environment one `connect()` attempt runs against:
whether `session.ws_connect` succeeds, and what the first receive
yields. -/
structure ConnectEnv where
  wsConnectOk : Bool
  firstMsg : FirstRecv

/-- connect models `WebSocketClient.connect` (`src/core/ws_client.py`
lines 68-114).  Returns the boolean result, the state after the attempt,
and the list of `ServerInfo` values handed to the connect callback.
Already-connected: return `True` at once, touching nothing.  Otherwise:
lazily create the session, open the socket, await the first frame; only
a TEXT `CONNECTION_ACK` flips the state to connected (storing session id
and server info, resetting the backoff delay) and fires the callback;
`asyncio.TimeoutError` and every other exception — including one raised
by the connect callback itself — is caught by the handlers at lines
109-114 and yields `False`. -/
def connect (env : ConnectEnv)
    (onConnect : Option (ServerInfo → Except PyError Unit))
    (st : ClientState) : Bool × ClientState × List ServerInfo :=
  if st.connected then (true, st, [])
  else
    let st1 := { st with sessionOpen := true }
    if !env.wsConnectOk then (false, st1, [])
    else
      let st2 := { st1 with wsOpen := true }
      match env.firstMsg with
      | FirstRecv.timeout => (false, st2, [])
      | FirstRecv.badText => (false, st2, [])
      | FirstRecv.nonText => (false, st2, [])
      | FirstRecv.text data =>
        match pyGet data "type" Json.null with
        | Except.error _ => (false, st2, [])
        | Except.ok tyv =>
          if tyv matches Json.str "CONNECTION_ACK" then
            match pyGet data "data" (Json.obj []) with
            | Except.error _ => (false, st2, [])
            | Except.ok d =>
            match pyGet d "sessionId" (Json.str "") with
            | Except.error _ => (false, st2, [])
            | Except.ok sid =>
              let st3 := { st2 with sessionId := sid }
              match pyGet d "serverInfo" (Json.obj []) with
              | Except.error _ => (false, st3, [])
              | Except.ok serverData =>
              match ServerInfo.from_dict serverData with
              | Except.error _ => (false, st3, [])
              | Except.ok info =>
                let st4 := { st3 with serverInfo := some info,
                                      connected := true,
                                      reconnectDelay := DEFAULT_RECONNECT_DELAY }
                match onConnect with
                | some cb =>
                  match cb info with
                  | Except.ok _ => (true, st4, [info])
                  | Except.error _ => (false, st4, [info])
                | none => (true, st4, [])
          else (false, st2, [])

/-- receive_loop_exit models the `finally` block of the supervisor loop
(`src/core/ws_client.py` lines 162-168), entered whenever the receive
loop exits: clear `_connected`, cancel the heartbeat task, and — when a
disconnect callback is registered and the client is still running — call
it with reason "Connection lost".  The call is not wrapped in any
`try`/`except`, so an exception raised by the disconnect callback
propagates out of `start()`. -/
def receive_loop_exit (onDisconnect : Option (String → Except PyError Unit))
    (st : ClientState) : Except PyError ClientState :=
  let st1 := { st with connected := false }
  match onDisconnect with
  | some cb =>
      if st1.running then
        match cb "Connection lost" with
        | Except.ok _ => Except.ok st1
        | Except.error e => Except.error e
      else Except.ok st1
  | none => Except.ok st1

/-- nextReconnectDelay is the backoff update of the supervisor loop
(`src/core/ws_client.py` lines 149-151):
`self._reconnect_delay = min(self._reconnect_delay * 2, self._max_reconnect_delay)`. -/
def nextReconnectDelay (maxDelay d : Nat) : Nat :=
  min (d * 2) maxDelay

/-- backoffSleeps abstracts the supervisor loop (`src/core/ws_client.py`
lines 139-152) to the sequence of sleeps it performs, given the sequence
of `connect()` outcomes.  On a failed attempt the loop sleeps for the
current `_reconnect_delay` and then doubles it (capped); a successful
attempt sleeps nothing and — inside `connect()`, line 92 — resets the
delay to `DEFAULT_RECONNECT_DELAY`. -/
def backoffSleeps (maxDelay : Nat) : Nat → List Bool → List Nat
  | _, [] => []
  | d, false :: rest => d :: backoffSleeps maxDelay (nextReconnectDelay maxDelay d) rest
  | _, true :: rest => backoffSleeps maxDelay DEFAULT_RECONNECT_DELAY rest

/-- delayAfter is the `_reconnect_delay` value held after the supervisor
loop has consumed the given sequence of connect outcomes. -/
def delayAfter (maxDelay : Nat) : Nat → List Bool → Nat
  | d, [] => d
  | d, false :: rest => delayAfter maxDelay (nextReconnectDelay maxDelay d) rest
  | _, true :: rest => delayAfter maxDelay DEFAULT_RECONNECT_DELAY rest

end WebSocketClient

/-- ServerConfig embeds the `ServerConfig` dataclass of
`src/core/models.py` lines 274-298 (static per-server configuration).
The `auto_forward_prefix` field of the source is rendered here as
`auto_forward_pre`. -/
structure ServerConfig where
  enabled : Bool
  server_id : String
  host : String
  port : Int
  token : String
  enable_ai_chat : Bool
  text2image : Bool
  forward_chat_to_astrbot : Bool
  forward_chat_format : String
  forward_join_leave_to_astrbot : Bool
  forward_target_session : List String
  auto_forward_pre : String
  auto_forward_sessions : List String
  mark_option : String
  cmd_enabled : Bool
  cmd_white_black_list : String
  cmd_list : List String
  bind_enable : Bool
  custom_cmd_list : List String
  deriving DecidableEq

/-- ServerConnection embeds the `ServerConnection` of
`src/core/server_manager.py`: the stored per-server entry.  Its
WebSocket and REST clients are built deterministically from the stored
config (server id, host, port, token) plus the registry's callbacks, so
the stored configuration determines the entry; the config field is what
the duplicate-add property observes. -/
structure ServerConnection where
  config : ServerConfig
  deriving DecidableEq

namespace ServerManager

/-- Servers is the `_servers: dict[str, ServerConnection]` map of
`ServerManager`, as an association list in insertion order (Python dicts
preserve insertion order and a fresh key is appended at the end). -/
abbrev Servers := List (String × ServerConnection)

/-- add_server models `ServerManager.add_server` (`src/core/server_manager.py`
lines 128-142): if the server id is already a key, log and return `False`
without touching the map; otherwise construct the connection for the
config and store it under the config's server id, returning `True`. -/
def add_server (servers : Servers) (config : ServerConfig) :
    Bool × Servers :=
  match List.lookup config.server_id servers with
  | some _ => (false, servers)
  | none => (true, servers ++ [(config.server_id, { config := config })])

/-- remove_server models `ServerManager.remove_server`
(`src/core/server_manager.py` lines 144-151). -/
def remove_server (servers : Servers) (server_id : String) :
    Bool × Servers :=
  match List.lookup server_id servers with
  | some _ => (true, servers.filter (fun p => p.1 != server_id))
  | none => (false, servers)

/-- sampleConfig is a concrete `ServerConfig` used by witnesses. -/
def sampleConfig : ServerConfig :=
  { enabled := true, server_id := "s1", host := "localhost", port := 8765
    token := "tok", enable_ai_chat := true, text2image := true
    forward_chat_to_astrbot := true, forward_chat_format := "fmt"
    forward_join_leave_to_astrbot := false, forward_target_session := []
    auto_forward_pre := "*", auto_forward_sessions := [], mark_option := "emoji"
    cmd_enabled := true, cmd_white_black_list := "white", cmd_list := []
    bind_enable := true, custom_cmd_list := [] }

end ServerManager

/-- ApiResponse embeds the `ApiResponse` dataclass of
`src/core/models.py` lines 389-409 (REST envelope); fields dynamically
typed as elsewhere.  The dataclass defaults are code 0, message "",
data None, timestamp 0. -/
structure ApiResponse where
  code : Json
  message : Json
  data : Json
  timestamp : Json

/-- ApiResponse.from_dict (`src/core/models.py` lines 398-405); note the
`data` field's default is `None`. -/
def ApiResponse.from_dict (j : Json) : Except PyError ApiResponse :=
  match pyGet j "code" (Json.num 0) with
  | Except.error e => Except.error e
  | Except.ok c =>
  match pyGet j "message" (Json.str "") with
  | Except.error e => Except.error e
  | Except.ok m =>
  match pyGet j "data" Json.null with
  | Except.error e => Except.error e
  | Except.ok d =>
  match pyGet j "timestamp" (Json.num 0) with
  | Except.error e => Except.error e
  | Except.ok t =>
    Except.ok { code := c, message := m, data := d, timestamp := t }

/-- ApiResponse.success is the `success` property (`self.code == 0`).
Python numeric equality: an int equals 0 exactly when it is 0, a bool
equals 0 exactly when it is `False` (bool is an int subtype), and no
other JSON-shaped value equals 0. -/
def ApiResponse.success (r : ApiResponse) : Bool :=
  match r.code with
  | Json.num n => n == 0
  | Json.bool b => !b
  | _ => false

/-- PlayerInfo embeds the `PlayerInfo` dataclass of `src/core/models.py`
lines 109-131. -/
structure PlayerInfo where
  uuid : Json
  name : Json
  display_name : Json
  ping : Json
  world : Json
  game_mode : Json
  is_op : Json

/-- PlayerInfo.from_dict (`src/core/models.py` lines 121-131). -/
def PlayerInfo.from_dict (data : Json) : Except PyError PlayerInfo :=
  match pyGet data "uuid" (Json.str "") with
  | Except.error e => Except.error e
  | Except.ok u =>
  match pyGet data "name" (Json.str "") with
  | Except.error e => Except.error e
  | Except.ok n =>
  match pyGet data "displayName" (Json.str "") with
  | Except.error e => Except.error e
  | Except.ok dn =>
  match pyGet data "ping" (Json.num 0) with
  | Except.error e => Except.error e
  | Except.ok pg =>
  match pyGet data "world" (Json.str "") with
  | Except.error e => Except.error e
  | Except.ok w =>
  match pyGet data "gameMode" (Json.str "") with
  | Except.error e => Except.error e
  | Except.ok gm =>
  match pyGet data "isOp" (Json.bool false) with
  | Except.error e => Except.error e
  | Except.ok op =>
    Except.ok { uuid := u, name := n, display_name := dn, ping := pg,
                world := w, game_mode := gm, is_op := op }

namespace RestClient

/-- HttpOutcome models what one HTTP request attempt yields at the
transport level: a response whose body parsed as JSON, a connection
failure (`aiohttp.ClientConnectorError`), a timeout (`TimeoutError`), or
any other exception (including a body that fails JSON parsing), carrying
the `str(e)` text. -/
inductive HttpOutcome where
  | ok (body : Json)
  | connectError
  | timeoutErr
  | otherError (errText : String)

/-- request models `RestClient._request` (`src/core/rest_client.py`
lines 64-95): on a response, decode the envelope (an envelope body that
is not a dict raises inside `ApiResponse.from_dict` and is caught by the
generic handler, whose `str(e)` is abstracted as "AttributeError"); a
connection error maps to code 3002 with a fixed message, a timeout to
code 3002 with a fixed message, any other exception to code 3001 with
`str(e)`.  Every ordinary failure is returned, never raised. -/
def request (outcome : HttpOutcome) : ApiResponse :=
  match outcome with
  | HttpOutcome.ok body =>
      match ApiResponse.from_dict body with
      | Except.ok r => r
      | Except.error _ =>
          { code := Json.num 3001, message := Json.str "AttributeError",
            data := Json.null, timestamp := Json.num 0 }
  | HttpOutcome.connectError =>
      { code := Json.num 3002, message := Json.str "服务器连接失败",
        data := Json.null, timestamp := Json.num 0 }
  | HttpOutcome.timeoutErr =>
      { code := Json.num 3002, message := Json.str "请求超时",
        data := Json.null, timestamp := Json.num 0 }
  | HttpOutcome.otherError errText =>
      { code := Json.num 3001, message := Json.str errText,
        data := Json.null, timestamp := Json.num 0 }

/-- get_players models `RestClient.get_players` (`src/core/rest_client.py`
lines 134-143): on a successful envelope with truthy data, build the
player list from `data["players"]` and read `data["total"]` (malformed
success data can raise, propagating to the caller — hence the `Except`);
otherwise return `([], 0, resp.message)`. -/
def get_players (outcome : HttpOutcome) :
    Except PyError (List PlayerInfo × Json × Json) :=
  let resp := request outcome
  if resp.success && pyTruthy resp.data then
    match pyGet resp.data "players" (Json.arr []) with
    | Except.error e => Except.error e
    | Except.ok ps =>
      match
        (match ps with
          | Json.arr l => l.mapM PlayerInfo.from_dict
          | _ => Except.error PyError.attributeError) with
      | Except.error e => Except.error e
      | Except.ok players =>
        match pyGet resp.data "total" (Json.num 0) with
        | Except.error e => Except.error e
        | Except.ok total => Except.ok (players, total, Json.str "")
  else
    Except.ok ([], Json.num 0, resp.message)

end RestClient

section Lemmas

/-- Enum round-trip: looking a `MessageType` member's wire string back up
yields the same member. -/
theorem messageType_ofString_value (t : MessageType) :
    MessageType.ofString t.value = some t := by
  cases t <;> rfl

/-- Enum round-trip for `TargetType`. -/
theorem targetType_ofString_value (t : TargetType) :
    TargetType.ofString t.value = some t := by
  cases t <;> rfl

/-- Appending a fresh key at the end of an association list makes it the
lookup result for that key. -/
theorem lookup_append_fresh {α β : Type} [BEq α] [LawfulBEq α]
    (l : List (α × β)) (k : α) (v : β) (h : List.lookup k l = none) :
    List.lookup k (l ++ [(k, v)]) = some v := by
  induction l with
  | nil => simp [List.lookup]
  | cons p rest ih =>
    obtain ⟨a, b⟩ := p
    rw [List.cons_append]
    cases hk : (k == a) with
    | true =>
      exfalso
      have h1 : List.lookup k ((a, b) :: rest) = some b := by
        simp [List.lookup, hk]
      rw [h1] at h
      cases h
    | false =>
      have h1 : List.lookup k ((a, b) :: rest) = List.lookup k rest := by
        simp [List.lookup, hk]
      have h2 : List.lookup k ((a, b) :: (rest ++ [(k, v)]))
          = List.lookup k (rest ++ [(k, v)]) := by
        simp [List.lookup, hk]
      rw [h1] at h
      rw [h2]
      exact ih h

end Lemmas

/-- C10: calling `connect()` on an already-connected Transport Client
returns `True` immediately and changes nothing — the whole client state
(socket, session, session id, server-info snapshot, backoff delay) is
returned untouched and no callback fires. -/
theorem connect_when_already_connected (env : WebSocketClient.ConnectEnv)
    (cb : Option (ServerInfo → Except PyError Unit))
    (st : WebSocketClient.ClientState) (h : st.connected = true) :
    WebSocketClient.connect env cb st = (true, st, []) := by
  simp [WebSocketClient.connect, h]

/-- C10 witness: a concrete connected state on a concrete environment. -/
theorem connect_when_already_connected_witness :
    WebSocketClient.connect ⟨true, WebSocketClient.FirstRecv.timeout⟩ none
      ⟨true, true, true, true, Json.str "sess", none, 4⟩
      = (true, ⟨true, true, true, true, Json.str "sess", none, 4⟩, []) :=
  connect_when_already_connected _ none _ rfl

/-- C8: adding a server configuration twice with the same server id
succeeds the first time and fails the second time; the failing second
call adds nothing and leaves the map — in particular the entry stored
for that id, with its configuration — exactly as the first call left
it.  Stated for any registry state not already holding the id (the first
call can only succeed then). -/
theorem add_server_twice (servers : ServerManager.Servers)
    (c1 c2 : ServerConfig)
    (hfresh : List.lookup c1.server_id servers = none)
    (hid : c2.server_id = c1.server_id) :
    (ServerManager.add_server servers c1).1 = true
    ∧ (ServerManager.add_server (ServerManager.add_server servers c1).2 c2).1 = false
    ∧ (ServerManager.add_server (ServerManager.add_server servers c1).2 c2).2
        = (ServerManager.add_server servers c1).2
    ∧ List.lookup c1.server_id (ServerManager.add_server servers c1).2
        = some { config := c1 } := by
  have hstep : ServerManager.add_server servers c1
      = (true, servers ++ [(c1.server_id, { config := c1 })]) := by
    simp [ServerManager.add_server, hfresh]
  have hlook : List.lookup c2.server_id
      (servers ++ [(c1.server_id, ({ config := c1 } : ServerConnection))])
      = some { config := c1 } := by
    rw [hid]
    exact lookup_append_fresh servers c1.server_id _ hfresh
  refine ⟨by rw [hstep], ?_, ?_, ?_⟩
  · rw [hstep]
    simp [ServerManager.add_server, hlook]
  · rw [hstep]
    simp [ServerManager.add_server, hlook]
  · rw [hstep]
    have h3 := hlook
    rw [hid] at h3
    exact h3

/-- C8 witness: a concrete fresh registry and two configs sharing the
server id "s1". -/
theorem add_server_twice_witness :
    (ServerManager.add_server [] ServerManager.sampleConfig).1 = true
    ∧ (ServerManager.add_server (ServerManager.add_server [] ServerManager.sampleConfig).2 ServerManager.sampleConfig).1 = false
    ∧ (ServerManager.add_server (ServerManager.add_server [] ServerManager.sampleConfig).2 ServerManager.sampleConfig).2
        = (ServerManager.add_server [] ServerManager.sampleConfig).2
    ∧ List.lookup ServerManager.sampleConfig.server_id (ServerManager.add_server [] ServerManager.sampleConfig).2
        = some { config := ServerManager.sampleConfig } :=
  add_server_twice [] ServerManager.sampleConfig ServerManager.sampleConfig rfl rfl

/-- C6: on a connected client (socket open), an inbound `HEARTBEAT`
frame with id X produces exactly one outbound frame — a `HEARTBEAT_ACK`
carrying the same id X — and nothing is dispatched to the message
callback; an inbound `HEARTBEAT_ACK` produces no outbound traffic at
all. -/
theorem heartbeat_reply (cb : Option (MCMessage → Except PyError Unit))
    (now : Int) (st : WebSocketClient.ClientState) (m mack : MCMessage)
    (hc : st.connected = true) (hw : st.wsOpen = true)
    (hm : m.type = MessageType.HEARTBEAT)
    (hack : mack.type = MessageType.HEARTBEAT_ACK) :
    WebSocketClient.handle_message cb now m st
      = Except.ok { state := st,
                    sent := [WebSocketClient.heartbeat_ack_json m.id now],
                    dispatched := [] }
    ∧ WebSocketClient.handle_message cb now mack st
      = Except.ok { state := st, sent := [], dispatched := [] } := by
  constructor
  · simp [WebSocketClient.handle_message, hm, WebSocketClient.ws_send, hw]
  · simp [WebSocketClient.handle_message, hack]

/-- C6 witness: heartbeat with id "X" on a concrete connected state. -/
theorem heartbeat_reply_witness :
    WebSocketClient.handle_message none 77
      { type := MessageType.HEARTBEAT, id := Json.str "X", source := none,
        target := none, payload := Json.obj [], timestamp := Json.num 0,
        reply_to := Json.str "" }
      ⟨true, true, true, true, Json.str "sess", none, 1⟩
      = Except.ok { state := ⟨true, true, true, true, Json.str "sess", none, 1⟩,
                    sent := [WebSocketClient.heartbeat_ack_json (Json.str "X") 77],
                    dispatched := [] }
    ∧ WebSocketClient.handle_message none 77
      { type := MessageType.HEARTBEAT_ACK, id := Json.str "Y", source := none,
        target := none, payload := Json.obj [], timestamp := Json.num 0,
        reply_to := Json.str "" }
      ⟨true, true, true, true, Json.str "sess", none, 1⟩
      = Except.ok { state := ⟨true, true, true, true, Json.str "sess", none, 1⟩,
                    sent := [], dispatched := [] } :=
  heartbeat_reply none 77 _ _ _ rfl rfl rfl rfl

/-- C4 (amended): each outbound helper writes its envelope if and only
if the underlying WebSocket handle is open (present and not closed) —
not the `_connected` flag — returning that condition as its boolean
result, and writes nothing (no queueing or buffering) when the socket is
absent or closed.  Transport-level write faults are abstracted away. -/
theorem outbound_helpers_socket_gate (st : WebSocketClient.ClientState)
    (m : MCMessage)
    (u reply_to target_type chat_mode content player_uuid error_message : String)
    (success : Bool)
    (platform user_id user_name content2 target_type2 player_uuid2 : String)
    (command executor : String) (player_uuid3 : Option String) (now : Int) :
    WebSocketClient.send_message m st
      = (st.wsOpen, if st.wsOpen then [MCMessage.to_dict m] else [])
    ∧ WebSocketClient.send_chat_response u reply_to target_type chat_mode
        content player_uuid success error_message now st
      = (st.wsOpen, if st.wsOpen
          then [WebSocketClient.chat_response_json u reply_to target_type
                  chat_mode content player_uuid success error_message now]
          else [])
    ∧ WebSocketClient.send_incoming_message u platform user_id user_name
        content2 target_type2 player_uuid2 now st
      = (st.wsOpen, if st.wsOpen
          then [WebSocketClient.incoming_message_json u platform user_id
                  user_name content2 target_type2 player_uuid2 now]
          else [])
    ∧ WebSocketClient.send_command_request u command executor player_uuid3 now st
      = (st.wsOpen, if st.wsOpen
          then [WebSocketClient.command_request_json u command executor
                  player_uuid3 now]
          else []) := by
  cases hw : st.wsOpen <;>
    simp [WebSocketClient.send_message, WebSocketClient.send_chat_response,
      WebSocketClient.send_incoming_message,
      WebSocketClient.send_command_request, WebSocketClient.ws_send, hw]

/-- C4 counterexample: the original claim gates sends on the connected
state.  Handling a server `DISCONNECT` frame leaves a client that is not
connected while its socket is still open; `send_message` on that state
nevertheless writes the frame and returns `True`, refuting "written if
and only if currently connected / returns false when not connected". -/
theorem send_while_not_connected_counterexample :
    WebSocketClient.handle_message none 0
      { type := MessageType.DISCONNECT, id := Json.str "d1", source := none,
        target := none, payload := Json.obj [], timestamp := Json.num 0,
        reply_to := Json.str "" }
      ⟨true, true, true, true, Json.str "sess", none, 1⟩
      = Except.ok { state := ⟨false, true, true, true, Json.str "sess", none, 1⟩,
                    sent := [], dispatched := [] }
    ∧ (WebSocketClient.send_message
        { type := MessageType.CHAT_RESPONSE, id := Json.str "m1", source := none,
          target := none, payload := Json.obj [], timestamp := Json.num 5,
          reply_to := Json.str "" }
        ⟨false, true, true, true, Json.str "sess", none, 1⟩).1 = true
    ∧ (WebSocketClient.send_message
        { type := MessageType.CHAT_RESPONSE, id := Json.str "m1", source := none,
          target := none, payload := Json.obj [], timestamp := Json.num 5,
          reply_to := Json.str "" }
        ⟨false, true, true, true, Json.str "sess", none, 1⟩).2
      = [MCMessage.to_dict
          { type := MessageType.CHAT_RESPONSE, id := Json.str "m1", source := none,
            target := none, payload := Json.obj [], timestamp := Json.num 5,
            reply_to := Json.str "" }] :=
  ⟨rfl, rfl, rfl⟩

/-- C5 (amended): handling an inbound `DISCONNECT` frame (with an
object-shaped payload, as the protocol sends) marks the client
disconnected, but it does not stop the receive loop: the loop carries on
with the remaining frames from the disconnected state, so later inbound
frames are still processed and dispatched until the socket itself closes
or errors. -/
theorem disconnect_marks_but_loop_continues
    (cb : Option (MCMessage → Except PyError Unit)) (now : Int)
    (j : Json) (m : MCMessage) (st : WebSocketClient.ClientState)
    (rest : List WebSocketClient.WSFrame)
    (h1 : MCMessage.from_dict j = Except.ok m)
    (h2 : m.type = MessageType.DISCONNECT)
    (h3 : ∃ fs, m.payload = Json.obj fs) :
    WebSocketClient.receive_loop cb now (WebSocketClient.WSFrame.text j :: rest) st
      = WebSocketClient.receive_loop cb now rest { st with connected := false } := by
  obtain ⟨fs, hp⟩ := h3
  have hh : WebSocketClient.handle_message cb now m st
      = Except.ok { state := { st with connected := false },
                    sent := [], dispatched := [] } := by
    simp [WebSocketClient.handle_message, h2, hp, pyGet]
  simp [WebSocketClient.receive_loop, h1, hh]

/-- C5 amended-claim witness: a concrete DISCONNECT frame ahead of an
empty tail. -/
theorem disconnect_marks_but_loop_continues_witness :
    WebSocketClient.receive_loop none 0
      [WebSocketClient.WSFrame.text (Json.obj [("type", Json.str "DISCONNECT")])]
      ⟨true, true, true, true, Json.str "sess", none, 1⟩
      = WebSocketClient.receive_loop none 0 []
        ⟨false, true, true, true, Json.str "sess", none, 1⟩ :=
  disconnect_marks_but_loop_continues none 0 _ _ _ [] rfl rfl ⟨[], rfl⟩

/-- C5 counterexample: after a `DISCONNECT` frame is handled the loop
keeps running — a `CHAT_REQUEST` frame arriving after it is still
decoded and dispatched to the message callback, refuting "stops the
receive loop: no further inbound frames are dispatched". -/
theorem frames_after_disconnect_dispatched_counterexample :
    WebSocketClient.receive_loop (some (fun _ => Except.ok ())) 0
      [WebSocketClient.WSFrame.text (Json.obj [("type", Json.str "DISCONNECT")]),
       WebSocketClient.WSFrame.text
         (Json.obj [("type", Json.str "CHAT_REQUEST"), ("id", Json.str "q1")])]
      ⟨true, true, true, true, Json.str "sess", none, 1⟩
      = { state := ⟨false, true, true, true, Json.str "sess", none, 1⟩,
          sent := [],
          dispatched := [{ type := MessageType.CHAT_REQUEST, id := Json.str "q1",
                           source := none, target := none, payload := Json.obj [],
                           timestamp := Json.num 0, reply_to := Json.str "" }] } :=
  rfl

/-- C7 counterexample: an exception raised by the registered disconnect
callback is not caught at the Transport Client boundary — the `finally`
block of the supervisor loop awaits the callback outside any
`try`/`except`, so the error propagates out of `start()` and the
supervisor (and with it all further dispatch) dies. -/
theorem disconnect_callback_fault_counterexample :
    WebSocketClient.receive_loop_exit
      (some (fun _ => Except.error PyError.attributeError))
      ⟨true, true, true, true, Json.str "sess", none, 1⟩
      = Except.error PyError.attributeError :=
  rfl

/-- C9 (amended): an HTTP transport failure (connection error or
timeout) makes `get_players` return the empty list, total 0 and a fixed
non-empty error message, raising nothing; a response with a non-zero
code likewise returns the empty list and total 0 without raising, but
the error-message part is the envelope's own `message` field, which may
be empty. -/
theorem rest_failure_tuples (body : Json) (r : ApiResponse)
    (h1 : ApiResponse.from_dict body = Except.ok r)
    (h2 : r.success = false) :
    RestClient.get_players RestClient.HttpOutcome.connectError
        = Except.ok ([], Json.num 0, Json.str "服务器连接失败")
    ∧ RestClient.get_players RestClient.HttpOutcome.timeoutErr
        = Except.ok ([], Json.num 0, Json.str "请求超时")
    ∧ ("服务器连接失败" ≠ "")
    ∧ ("请求超时" ≠ "")
    ∧ RestClient.get_players (RestClient.HttpOutcome.ok body)
        = Except.ok ([], Json.num 0, r.message) := by
  refine ⟨rfl, rfl, by decide, by decide, ?_⟩
  simp [RestClient.get_players, RestClient.request, h1, h2]

/-- C9 witness: a concrete envelope with code 7 and message "boom". -/
theorem rest_failure_tuples_witness :
    RestClient.get_players RestClient.HttpOutcome.connectError
        = Except.ok ([], Json.num 0, Json.str "服务器连接失败")
    ∧ RestClient.get_players RestClient.HttpOutcome.timeoutErr
        = Except.ok ([], Json.num 0, Json.str "请求超时")
    ∧ ("服务器连接失败" ≠ "")
    ∧ ("请求超时" ≠ "")
    ∧ RestClient.get_players
        (RestClient.HttpOutcome.ok
          (Json.obj [("code", Json.num 7), ("message", Json.str "boom")]))
        = Except.ok ([], Json.num 0, Json.str "boom") :=
  rest_failure_tuples
    (Json.obj [("code", Json.num 7), ("message", Json.str "boom")])
    { code := Json.num 7, message := Json.str "boom", data := Json.null,
      timestamp := Json.num 0 }
    rfl rfl

/-- C9 counterexample: a response whose code is non-zero but whose
`message` field is absent yields the empty string as the error-message
part, refuting "the error-message part is a non-empty string" for the
non-zero-response-code failure mode. -/
theorem rest_nonzero_code_empty_message_counterexample :
    RestClient.get_players
      (RestClient.HttpOutcome.ok (Json.obj [("code", Json.num 1)]))
      = Except.ok ([], Json.num 0, Json.str "") :=
  rfl

/-- C1 counterexample: a syntactically valid JSON object whose `type`
key holds the string "HEARTBEAT" but whose `source` member is the number
0 makes `MCMessage.from_dict` raise (`0 .get(...)` is an attribute error
inside `MCMessageSource.from_dict`), refuting "decoding never raises". -/
theorem decode_raises_on_nondict_source_counterexample :
    MCMessage.from_dict
      (Json.obj [("type", Json.str "HEARTBEAT"), ("source", Json.num 0)])
      = Except.error PyError.attributeError :=
  rfl

/-- Splitting a run of supervisor outcomes: the sleeps for `xs ++ ys` are
the sleeps for `xs` followed by the sleeps for `ys` started from the
delay state left by `xs`. -/
theorem backoffSleeps_append (maxDelay : Nat) (xs ys : List Bool) :
    ∀ d, WebSocketClient.backoffSleeps maxDelay d (xs ++ ys)
      = WebSocketClient.backoffSleeps maxDelay d xs
        ++ WebSocketClient.backoffSleeps maxDelay
             (WebSocketClient.delayAfter maxDelay d xs) ys := by
  induction xs with
  | nil => intro d; rfl
  | cons b rest ih =>
    intro d
    cases b with
    | false =>
      simp only [List.cons_append, WebSocketClient.backoffSleeps,
        WebSocketClient.delayAfter, List.append_eq]
      rw [ih]
    | true =>
      simp only [List.cons_append, WebSocketClient.backoffSleeps,
        WebSocketClient.delayAfter, List.append_eq]
      exact ih _

/-- Splitting the delay state over an outcome-list append. -/
theorem delayAfter_append (maxDelay : Nat) (xs ys : List Bool) :
    ∀ d, WebSocketClient.delayAfter maxDelay d (xs ++ ys)
      = WebSocketClient.delayAfter maxDelay
          (WebSocketClient.delayAfter maxDelay d xs) ys := by
  induction xs with
  | nil => intro d; rfl
  | cons b rest ih =>
    intro d
    cases b with
    | false =>
      simp only [List.cons_append, WebSocketClient.delayAfter]
      exact ih _
    | true =>
      simp only [List.cons_append, WebSocketClient.delayAfter]
      exact ih _

/-- A successful connect resets the backoff: after any outcome list
ending in `true` the stored reconnect delay is back at the floor. -/
theorem delayAfter_of_last_true (maxDelay : Nat) (qre : List Bool) (d : Nat) :
    WebSocketClient.delayAfter maxDelay d (qre ++ [true])
      = DEFAULT_RECONNECT_DELAY := by
  rw [delayAfter_append]
  rfl

/-- Doubling a capped power of two and re-capping gives the next capped
power of two. -/
theorem min_double_pow (maxDelay j : Nat) :
    min (min (2 ^ j) maxDelay * 2) maxDelay = min (2 ^ (j + 1)) maxDelay := by
  rcases Nat.le_total (2 ^ j) maxDelay with h | h
  · rw [Nat.min_eq_left h, pow_succ]
  · rw [Nat.min_eq_right h]
    have h2 : maxDelay ≤ 2 ^ (j + 1) := by
      calc maxDelay ≤ 2 ^ j := h
        _ ≤ 2 ^ (j + 1) := Nat.pow_le_pow_right (by omega) (by omega)
    rw [Nat.min_eq_right h2]
    omega

/-- Sleeps over a pure failure run: starting from the capped delay
`min (2 ^ j) maxDelay`, the k-th sleep is `min (2 ^ (j + k)) maxDelay`. -/
theorem backoffSleeps_replicate (maxDelay : Nat) (N : Nat) :
    ∀ j, WebSocketClient.backoffSleeps maxDelay (min (2 ^ j) maxDelay)
        (List.replicate N false)
      = (List.range N).map (fun k => min (2 ^ (j + k)) maxDelay) := by
  induction N with
  | zero => intro j; rfl
  | succ n ih =>
    intro j
    rw [List.replicate_succ]
    simp only [WebSocketClient.backoffSleeps, WebSocketClient.nextReconnectDelay]
    rw [min_double_pow maxDelay j]
    rw [ih (j + 1)]
    rw [List.range_succ_eq_map]
    simp only [List.map_cons, List.map_map]
    have hfun : ((fun k => min (2 ^ (j + k)) maxDelay) ∘ (fun i => i + 1))
        = (fun k => min (2 ^ (j + 1 + k)) maxDelay) := by
      funext k
      simp only [Function.comp_apply]
      have hjk : j + (k + 1) = j + 1 + k := by omega
      rw [hjk]
    rw [hfun]
    simp

/-- C3: over any run of N consecutive failed connect attempts that
follows the start of the supervisor (empty history) or any successful
connect (history ending in success), the sleep before attempt k+1
(k from 0) is exactly `min(initial * 2 ^ k, max)` with initial the
1-second floor and max the configurable cap; the success immediately
preceding the run has reset the delay to the floor.  Requires the cap to
be at least the floor (true of the default 60). -/
theorem backoff_formula (maxDelay N : Nat) (pre : List Bool)
    (h1 : 1 ≤ maxDelay)
    (h2 : pre = [] ∨ ∃ qre, pre = qre ++ [true]) :
    WebSocketClient.backoffSleeps maxDelay DEFAULT_RECONNECT_DELAY
        (pre ++ List.replicate N false)
      = WebSocketClient.backoffSleeps maxDelay DEFAULT_RECONNECT_DELAY pre
        ++ (List.range N).map
            (fun k => min (DEFAULT_RECONNECT_DELAY * 2 ^ k) maxDelay) := by
  have hreset : WebSocketClient.delayAfter maxDelay DEFAULT_RECONNECT_DELAY pre
      = DEFAULT_RECONNECT_DELAY := by
    rcases h2 with h | ⟨qre, hq⟩
    · rw [h]; rfl
    · rw [hq]; exact delayAfter_of_last_true maxDelay qre _
  rw [backoffSleeps_append, hreset]
  congr 1
  have hstart : DEFAULT_RECONNECT_DELAY = min (2 ^ 0) maxDelay := by
    rw [pow_zero, Nat.min_eq_left h1]
    rfl
  have lhs_eq : WebSocketClient.backoffSleeps maxDelay DEFAULT_RECONNECT_DELAY
      (List.replicate N false)
      = (List.range N).map (fun k => min (2 ^ (0 + k)) maxDelay) := by
    rw [hstart]
    exact backoffSleeps_replicate maxDelay N 0
  have hf : (fun k => min (2 ^ (0 + k)) maxDelay)
      = (fun k => min (DEFAULT_RECONNECT_DELAY * 2 ^ k) maxDelay) := by
    funext k
    simp [DEFAULT_RECONNECT_DELAY]
  rw [lhs_eq, hf]

/-- C3 witness: cap 60, three failures after one success. -/
theorem backoff_formula_witness :
    WebSocketClient.backoffSleeps 60 DEFAULT_RECONNECT_DELAY
        ([true] ++ List.replicate 3 false)
      = WebSocketClient.backoffSleeps 60 DEFAULT_RECONNECT_DELAY [true]
        ++ (List.range 3).map
            (fun k => min (DEFAULT_RECONNECT_DELAY * 2 ^ k) 60) :=
  backoff_formula 60 3 [true] (by omega) (Or.inr ⟨[], rfl⟩)

/-- The message handler's result does not depend on what the registered
message callback does (its exceptions are swallowed at the call site). -/
theorem handle_message_cb_agnostic (f g : MCMessage → Except PyError Unit)
    (now : Int) (m : MCMessage) (st : WebSocketClient.ClientState) :
    WebSocketClient.handle_message (some f) now m st
      = WebSocketClient.handle_message (some g) now m st := by
  cases h : m.type <;> simp [WebSocketClient.handle_message, h]

/-- The receive loop's entire observable behaviour — final state, frames
written, messages dispatched — does not depend on what the registered
message callback does. -/
theorem receive_loop_cb_agnostic (f g : MCMessage → Except PyError Unit)
    (now : Int) : ∀ (frames : List WebSocketClient.WSFrame)
    (st : WebSocketClient.ClientState),
    WebSocketClient.receive_loop (some f) now frames st
      = WebSocketClient.receive_loop (some g) now frames st := by
  intro frames
  induction frames with
  | nil => intro st; rfl
  | cons fr rest ih =>
    intro st
    cases fr with
    | text j =>
      cases hd : MCMessage.from_dict j with
      | error e =>
        simp only [WebSocketClient.receive_loop, hd]
        exact ih st
      | ok m =>
        have hmsg := handle_message_cb_agnostic f g now m st
        cases hh : WebSocketClient.handle_message (some g) now m st with
        | error e =>
          simp only [WebSocketClient.receive_loop, hd, hmsg, hh]
          exact ih st
        | ok r =>
          simp only [WebSocketClient.receive_loop, hd, hmsg, hh]
          rw [ih r.state]
    | malformedText =>
      simp only [WebSocketClient.receive_loop]
      exact ih st
    | wsError => rfl
    | closed => rfl
    | other =>
      simp only [WebSocketClient.receive_loop]
      exact ih st

/-- An exception raised by the connect callback is caught by the generic
handler inside `connect()`: the call still returns a boolean, namely
`False`. -/
theorem connect_cb_exception_caught (env : WebSocketClient.ConnectEnv)
    (fc : ServerInfo → Except PyError Unit) (e : PyError)
    (st : WebSocketClient.ClientState)
    (hst : st.connected = false) (hfc : ∀ i, fc i = Except.error e) :
    (WebSocketClient.connect env (some fc) st).1 = false := by
  obtain ⟨wco, fm⟩ := env
  cases wco with
  | false => simp [WebSocketClient.connect, hst]
  | true =>
    cases fm with
    | timeout => simp [WebSocketClient.connect, hst]
    | badText => simp [WebSocketClient.connect, hst]
    | nonText => simp [WebSocketClient.connect, hst]
    | text j =>
      simp only [WebSocketClient.connect, hst, Bool.false_eq_true, if_false]
      cases j <;> try simp [pyGet]
      repeat'
        first
          | rfl
          | (rename_i heq
             rw [hfc] at heq
             cases heq)
          | split

/-- An exception raised by the disconnect callback propagates out of the
supervisor loop's `finally` block. -/
theorem receive_loop_exit_propagates (fd : String → Except PyError Unit)
    (e : PyError) (st : WebSocketClient.ClientState)
    (hr : st.running = true) (hfd : ∀ s, fd s = Except.error e) :
    WebSocketClient.receive_loop_exit (some fd) st = Except.error e := by
  simp [WebSocketClient.receive_loop_exit, hr, hfd]

/-- C7 (amended): an exception raised inside a registered message
callback is caught and logged at the Transport Client boundary and does
not abort the receive loop — the loop's behaviour is entirely
independent of what the message callback does, so dispatch of subsequent
inbound frames continues as if the callback had returned normally; an
exception raised inside the connect callback is caught by `connect()`'s
generic handler (the attempt then reports failure, returning `False`);
but an exception raised inside the disconnect callback is NOT caught —
it propagates out of the supervisor loop. -/
theorem callback_fault_handling
    (f g : MCMessage → Except PyError Unit) (now : Int)
    (frames : List WebSocketClient.WSFrame)
    (st1 : WebSocketClient.ClientState)
    (env : WebSocketClient.ConnectEnv)
    (fc : ServerInfo → Except PyError Unit)
    (st2 : WebSocketClient.ClientState)
    (fd : String → Except PyError Unit)
    (st3 : WebSocketClient.ClientState) (e : PyError)
    (h2 : st2.connected = false) (hfc : ∀ i, fc i = Except.error e)
    (h3 : st3.running = true) (hfd : ∀ s, fd s = Except.error e) :
    WebSocketClient.receive_loop (some f) now frames st1
        = WebSocketClient.receive_loop (some g) now frames st1
    ∧ (WebSocketClient.connect env (some fc) st2).1 = false
    ∧ WebSocketClient.receive_loop_exit (some fd) st3 = Except.error e :=
  ⟨receive_loop_cb_agnostic f g now frames st1,
   connect_cb_exception_caught env fc e st2 h2 hfc,
   receive_loop_exit_propagates fd e st3 h3 hfd⟩

/-- C7 witness: a raising message callback against a normal one on one
CHAT_REQUEST frame, a raising connect callback on a successful
handshake environment, and a raising disconnect callback. -/
theorem callback_fault_handling_witness :
    WebSocketClient.receive_loop (some (fun _ => Except.error PyError.attributeError)) 3
        [WebSocketClient.WSFrame.text
          (Json.obj [("type", Json.str "CHAT_REQUEST"), ("id", Json.str "q2")])]
        ⟨true, true, true, true, Json.str "sess", none, 1⟩
      = WebSocketClient.receive_loop (some (fun _ => Except.ok ())) 3
        [WebSocketClient.WSFrame.text
          (Json.obj [("type", Json.str "CHAT_REQUEST"), ("id", Json.str "q2")])]
        ⟨true, true, true, true, Json.str "sess", none, 1⟩
    ∧ (WebSocketClient.connect
        ⟨true, WebSocketClient.FirstRecv.text
          (Json.obj [("type", Json.str "CONNECTION_ACK")])⟩
        (some (fun _ => Except.error PyError.attributeError))
        ⟨false, true, false, false, Json.str "", none, 8⟩).1 = false
    ∧ WebSocketClient.receive_loop_exit
        (some (fun _ => Except.error PyError.attributeError))
        ⟨true, true, true, true, Json.str "sess", none, 1⟩
      = Except.error PyError.attributeError :=
  callback_fault_handling
    (fun _ => Except.error PyError.attributeError) (fun _ => Except.ok ()) 3
    [WebSocketClient.WSFrame.text
      (Json.obj [("type", Json.str "CHAT_REQUEST"), ("id", Json.str "q2")])]
    ⟨true, true, true, true, Json.str "sess", none, 1⟩
    ⟨true, WebSocketClient.FirstRecv.text
      (Json.obj [("type", Json.str "CONNECTION_ACK")])⟩
    (fun _ => Except.error PyError.attributeError)
    ⟨false, true, false, false, Json.str "", none, 8⟩
    (fun _ => Except.error PyError.attributeError)
    ⟨true, true, true, true, Json.str "sess", none, 1⟩
    PyError.attributeError
    rfl (fun _ => rfl) rfl (fun _ => rfl)

/-- On a source object whose `server` and `player` members (when
present) are objects, `MCMessageSource.from_dict` succeeds. -/
theorem source_from_dict_ok (sfs : List (String × Json))
    (h : (memberIsObjOrAbsent sfs "server" && memberIsObjOrAbsent sfs "player") = true) :
    ∃ src, MCMessageSource.from_dict (Json.obj sfs) = Except.ok src := by
  rw [Bool.and_eq_true] at h
  obtain ⟨h1, h2⟩ := h
  have hserver : ∃ l, (sfs.lookup "server").getD (Json.obj []) = Json.obj l := by
    rw [memberIsObjOrAbsent] at h1
    cases hS : jlookup sfs "server" with
    | none =>
      rw [jlookup] at hS
      rw [hS]
      exact ⟨[], rfl⟩
    | some v =>
      rw [hS] at h1
      rw [jlookup] at hS
      rw [hS]
      cases v <;> simp at h1 <;> exact ⟨_, rfl⟩
  have hplayer : ∃ l, (sfs.lookup "player").getD (Json.obj []) = Json.obj l := by
    rw [memberIsObjOrAbsent] at h2
    cases hP : jlookup sfs "player" with
    | none =>
      rw [jlookup] at hP
      rw [hP]
      exact ⟨[], rfl⟩
    | some v =>
      rw [hP] at h2
      rw [jlookup] at hP
      rw [hP]
      cases v <;> simp at h2 <;> exact ⟨_, rfl⟩
  obtain ⟨sl, hsl⟩ := hserver
  obtain ⟨pl, hpl⟩ := hplayer
  refine ⟨{ type := safe_enum_source_type ((sfs.lookup "type").getD (Json.str "PLAYER"))
              SourceType.PLAYER
            server_name := (sl.lookup "name").getD (Json.str "")
            server_platform := (sl.lookup "platform").getD (Json.str "")
            player_uuid := (pl.lookup "uuid").getD (Json.str "")
            player_name := (pl.lookup "name").getD (Json.str "")
            player_display_name := (pl.lookup "displayName").getD (Json.str "") }, ?_⟩
  simp only [MCMessageSource.from_dict, pyGet, hsl, hpl]

/-- Target objects always decode: `MCMessageTarget.from_dict` cannot
fail on a dict. -/
theorem target_from_dict_ok (tfs : List (String × Json)) :
    ∃ t, MCMessageTarget.from_dict (Json.obj tfs) = Except.ok t :=
  ⟨_, rfl⟩

/-- The optional-source decoding step succeeds on a well-shaped object. -/
theorem decode_source_field_ok (fields : List (String × Json))
    (hs : wellShapedSource fields = true) :
    ∃ o, decode_source_field fields = Except.ok o := by
  rw [wellShapedSource] at hs
  cases hS : jlookup fields "source" with
  | none => exact ⟨none, by simp only [decode_source_field, hS]⟩
  | some sv =>
    rw [hS] at hs
    cases sv with
    | obj sfs =>
      obtain ⟨src, hsd⟩ := source_from_dict_ok sfs hs
      exact ⟨some src, by simp only [decode_source_field, hS, hsd]⟩
    | null => simp at hs
    | bool b => simp at hs
    | num n => simp at hs
    | str s2 => simp at hs
    | arr l => simp at hs

/-- The optional-target decoding step succeeds when the `target` member
is absent or an object. -/
theorem decode_target_field_ok (fields : List (String × Json))
    (ht : wellShapedTarget fields = true) :
    ∃ o, decode_target_field fields = Except.ok o := by
  rw [wellShapedTarget, memberIsObjOrAbsent] at ht
  cases hT : jlookup fields "target" with
  | none => exact ⟨none, by simp only [decode_target_field, hT]⟩
  | some tv =>
    rw [hT] at ht
    cases tv with
    | obj tfs =>
      obtain ⟨t, htd⟩ := target_from_dict_ok tfs
      exact ⟨some t, by simp only [decode_target_field, hT, htd]⟩
    | null => simp at ht
    | bool b => simp at ht
    | num n => simp at ht
    | str s2 => simp at ht
    | arr l => simp at ht

/-- C1 (amended): for every JSON object whose `type` member is a string
or absent, whose `source` member — when present — is an object with
object-shaped `server`/`player` members (when present), and whose
`target` member — when present — is an object, `MCMessage.from_dict`
never raises; and whenever the `type` member is missing or holds a
string that is not one of the fourteen recognized message-type values,
the decoded Message's type is `ERROR`. -/
theorem decode_total_on_wellshaped (fields : List (String × Json))
    (hs : wellShapedSource fields = true)
    (ht : wellShapedTarget fields = true)
    (hty : typeFieldStrOrAbsent fields = true) :
    ∃ m, MCMessage.from_dict (Json.obj fields) = Except.ok m
      ∧ (typeMissingOrUnknown fields = true → m.type = MessageType.ERROR) := by
  obtain ⟨osrc, hsrc⟩ := decode_source_field_ok fields hs
  obtain ⟨otgt, htgt⟩ := decode_target_field_ok fields ht
  refine ⟨{ type := safe_enum_message_type
              ((jlookup fields "type").getD (Json.str "ERROR")) MessageType.ERROR
            id := (jlookup fields "id").getD (Json.str "")
            source := osrc
            target := otgt
            payload := (jlookup fields "payload").getD (Json.obj [])
            timestamp := (jlookup fields "timestamp").getD (Json.num 0)
            reply_to := (jlookup fields "replyTo").getD (Json.str "") }, ?_, ?_⟩
  · simp only [MCMessage.from_dict, hsrc, htgt]
  · intro hmu
    rw [typeMissingOrUnknown] at hmu
    show safe_enum_message_type ((jlookup fields "type").getD (Json.str "ERROR"))
        MessageType.ERROR = MessageType.ERROR
    cases hT : jlookup fields "type" with
    | none => rfl
    | some v =>
      rw [hT] at hmu
      cases v with
      | str s2 =>
        have hnone : MessageType.ofString s2 = none :=
          Option.isNone_iff_eq_none.mp hmu
        simp [safe_enum_message_type, hnone]
      | null => cases hmu
      | bool b => cases hmu
      | num n => cases hmu
      | arr l => cases hmu
      | obj o => cases hmu

/-- C1 witness: an object with an unknown type string, a well-shaped
source and no target decodes to a Message of type ERROR. -/
theorem decode_total_on_wellshaped_witness :
    ∃ m, MCMessage.from_dict
        (Json.obj [("type", Json.str "BOGUS_TYPE"),
                   ("source", Json.obj [("server", Json.obj [])])])
        = Except.ok m
      ∧ (typeMissingOrUnknown
          [("type", Json.str "BOGUS_TYPE"),
           ("source", Json.obj [("server", Json.obj [])])] = true
          → m.type = MessageType.ERROR) :=
  decode_total_on_wellshaped
    [("type", Json.str "BOGUS_TYPE"),
     ("source", Json.obj [("server", Json.obj [])])]
    rfl rfl rfl

/-- Round-trip for the target sub-object: encoding a target whose player
fields are strings and decoding it back is the identity (empty strings
are omitted on encode and restored as the empty-string defaults on
decode). -/
theorem target_roundtrip (t : MCMessageTarget)
    (hu : ∃ u, t.player_uuid = Json.str u)
    (hw : ∃ w, t.player_name = Json.str w) :
    MCMessageTarget.from_dict (MCMessageTarget.to_dict t) = Except.ok t := by
  obtain ⟨u, hu⟩ := hu
  obtain ⟨w, hw⟩ := hw
  obtain ⟨tt, pu, pn⟩ := t
  simp only at hu hw
  subst hu
  subst hw
  by_cases hue : u = "" <;> by_cases hwe : w = "" <;>
    simp [MCMessageTarget.to_dict, MCMessageTarget.from_dict, pyGet, pyTruthy,
      safe_enum_target_type, targetType_ofString_value, List.lookup, hue, hwe]

/-- C2: for every Message populated only with the fields this system
sends outbound — a type, a string id, an integer timestamp, an optional
target (with string player fields), a dict payload, a string replyTo,
and no source — decoding the encoding is the identity: fields omitted
because empty (empty payload, empty replyTo, absent target, empty
player fields inside the target) decode back to their empty defaults,
and all others round-trip exactly. -/
theorem encode_decode_roundtrip (ty : MessageType) (s r : String) (n : Int)
    (ps : List (String × Json)) (tgt : Option MCMessageTarget)
    (htgt : ∀ t, tgt = some t →
      (∃ u, t.player_uuid = Json.str u) ∧ (∃ w, t.player_name = Json.str w)) :
    MCMessage.from_dict (MCMessage.to_dict
      { type := ty, id := Json.str s, source := none, target := tgt,
        payload := Json.obj ps, timestamp := Json.num n, reply_to := Json.str r })
    = Except.ok
      { type := ty, id := Json.str s, source := none, target := tgt,
        payload := Json.obj ps, timestamp := Json.num n, reply_to := Json.str r } := by
  have hmt : safe_enum_message_type (Json.str (MessageType.value ty))
      MessageType.ERROR = ty := by
    simp [safe_enum_message_type, messageType_ofString_value]
  cases tgt with
  | none =>
    cases ps <;> by_cases hr : r = "" <;>
      simp [MCMessage.to_dict, MCMessage.from_dict, decode_source_field,
        decode_target_field, jlookup, List.lookup, pyTruthy, hmt, hr]
  | some t =>
    have ht2 : MCMessageTarget.from_dict (MCMessageTarget.to_dict t)
        = Except.ok t := by
      obtain ⟨h1, h2⟩ := htgt t rfl
      exact target_roundtrip t h1 h2
    cases ps <;> by_cases hr : r = "" <;>
      simp [MCMessage.to_dict, MCMessage.from_dict, decode_source_field,
        decode_target_field, jlookup, List.lookup, pyTruthy, hmt, hr, ht2]

/-- C2 witness: a concrete chat response with target, payload and
replyTo populated round-trips exactly. -/
theorem encode_decode_roundtrip_witness :
    MCMessage.from_dict (MCMessage.to_dict
      { type := MessageType.CHAT_RESPONSE, id := Json.str "abc", source := none,
        target := some { type := TargetType.PLAYER, player_uuid := Json.str "u-1",
                         player_name := Json.str "" },
        payload := Json.obj [("content", Json.str "hi")],
        timestamp := Json.num 1700000000000, reply_to := Json.str "req-1" })
    = Except.ok
      { type := MessageType.CHAT_RESPONSE, id := Json.str "abc", source := none,
        target := some { type := TargetType.PLAYER, player_uuid := Json.str "u-1",
                         player_name := Json.str "" },
        payload := Json.obj [("content", Json.str "hi")],
        timestamp := Json.num 1700000000000, reply_to := Json.str "req-1" } :=
  encode_decode_roundtrip MessageType.CHAT_RESPONSE "abc" "req-1" 1700000000000
    [("content", Json.str "hi")]
    (some { type := TargetType.PLAYER, player_uuid := Json.str "u-1",
            player_name := Json.str "" })
    (fun t ht => by
      cases ht
      exact ⟨⟨"u-1", rfl⟩, ⟨"", rfl⟩⟩)
